import Mathlib

/-!
Verification development for the Issue Scoring & Contextual Analysis Engine
(`issue_analyzer.py`).  The Python functions are shallowly embedded as Lean
definitions.  External collaborators (the GitHub API, Python's `ast` parser,
`difflib.SequenceMatcher`) enter as explicit data: the repository is a finite
file tree plus a closed-issue list, the parser is an oracle
`String → Option PyAst`, the title-similarity metric is an oracle
`String → String → ℚ`, and the wall clock is an explicit `now : Int`
(whole days, mirroring `(datetime.now(tz) - created_at).days`).
-/

/-! ### String helpers (Python `in` on strings) -/

/-- Substring occurrence on character lists: models Python's `pat in s`. -/
def hasSub (pat : List Char) : List Char → Bool
  | [] => pat.isEmpty
  | c :: t => pat.isPrefixOf (c :: t) || hasSub pat t

/-- Models the Python expression `pat in s` for strings. -/
def strContains (s pat : String) : Bool := hasSub pat.toList s.toList

/-- Python's `str.lower()` (character-wise case folding). -/
def strLower (s : String) : String := String.mk (s.toList.map Char.toLower)

/-- Python's `str.startswith(pat)`. -/
def strStarts (s pat : String) : Bool := pat.toList.isPrefixOf s.toList

/-- Python's `str.endswith(pat)`. -/
def strEnds (s pat : String) : Bool := pat.toList.isSuffixOf s.toList

/-- Split a character list at every occurrence of `sep`. -/
def splitChars (sep : Char) : List Char → List (List Char)
  | [] => [[]]
  | c :: cs =>
    if c == sep then [] :: splitChars sep cs
    else
      match splitChars sep cs with
      | [] => [[c]]
      | g :: gs => (c :: g) :: gs

/-- The `/`-separated component view of a path string. -/
def splitPath (p : String) : List String := (splitChars '/' p.toList).map String.mk

/-! ### Data model -/

/-- Immutable snapshot of a GitHub issue, restricted to the fields the engine
reads: `number`, `title`, `body` (nullable), label names, comment count
(`issue.comments`), creation time in whole days (`issue.created_at`), and the
comment bodies returned by `issue.get_comments()` (each nullable). -/
structure Issue where
  number : Int
  title : String
  body : Option String
  labels : List String
  comments : Nat
  created_at : Int
  commentBodies : List (Option String)
deriving DecidableEq, Repr

/-- A closed issue as consumed by `find_similar_resolved_issues`: only its
number and title are read. -/
structure ClosedIssue where
  number : Int
  title : String
deriving DecidableEq, Repr

/-- An issue template, `name → {section header → section body}`.  Only the
section-header keys are ever read (`template_content.keys()`), so a template
is embedded as its name and its list of section headers. -/
abbrev IssueTemplate := String × List String

/-! ### Approachability scorer (`score_issue`) -/

/-- Line 27-28: +5 when any label lowercases to
"good first issue" or "help wanted". -/
def scoreLabels (labels : List String) : Int :=
  if labels.any (fun l => strLower l == "good first issue" || strLower l == "help wanted")
  then 5 else 0

/-- Lines 30-34: the description-length tier of `score_issue`. -/
def scoreDescription (len : Nat) : Int :=
  if 100 ≤ len ∧ len ≤ 500 then 3
  else if 50 ≤ len ∧ len < 100 then 2
  else 0

/-- Lines 36-40: the comment-count tier of `score_issue`. -/
def scoreComments (count : Nat) : Int :=
  if count = 0 then 2
  else if count < 5 then 1
  else 0

/-- Lines 42-46: the issue-age tier of `score_issue`,
with `daysOld = (datetime.now(tz) - created_at).days`. -/
def scoreAge (daysOld : Int) : Int :=
  if daysOld < 30 then 2
  else if daysOld < 90 then 1
  else 0

/-- Lines 48-53: +3 when the body contains every section header of some
template.  The Python loop breaks after the first matching template; since
every match adds the same 3, the loop is equivalent to an `any`.  The outer
`if issue_templates:` guard is absorbed: `any` over the empty list is false. -/
def scoreTemplates (body : String) (issue_templates : List IssueTemplate) : Int :=
  if issue_templates.any (fun t => t.2.all (fun sec => strContains body sec))
  then 3 else 0

/-- `score_issue(issue, issue_templates)` (lines 24-55).  The sequence of
`score +=` statements is embedded as the sum of its five tiers.  `now` makes
the hidden `datetime.now()` read explicit. -/
def score_issue (issue : Issue) (issue_templates : List IssueTemplate) (now : Int) : Int :=
  scoreLabels issue.labels
    + scoreDescription (issue.body.getD "").length
    + scoreComments issue.comments
    + scoreAge (now - issue.created_at)
    + scoreTemplates (issue.body.getD "") issue_templates

/-! ### `find_mentioned_files` and its regular expression

The pattern is `\b(?:[\w-]+/)*[\w-]+\.[a-zA-Z]+\b` and `re.findall` scans for
leftmost non-overlapping matches with greedy backtracking.  The matcher below
implements exactly that backtracking order, specialised to this pattern.
`\w` is embedded as ASCII alphanumeric or underscore (all inputs under
analysis are ASCII). -/

/-- Python's `\w` character class (ASCII fragment). -/
def isWordChar (c : Char) : Bool := c.isAlphanum || c == '_'

/-- The `[\w-]` character class of the path pattern. -/
def isWDash (c : Char) : Bool := isWordChar c || c == '-'

/-- Length of the maximal run of characters satisfying `p` at the front. -/
def runLength (p : Char → Bool) : List Char → Nat
  | [] => 0
  | c :: cs => if p c then runLength p cs + 1 else 0

/-- Is there a word boundary after consuming `n` word characters of `l`?
(The character before the boundary is always a word character here.) -/
def boundaryAfterRun (l : List Char) (n : Nat) : Bool :=
  match l.drop n with
  | [] => true
  | c :: _ => !(isWordChar c)

/-- Backtracking for `[a-zA-Z]+\b`: try run lengths from `m` down to 1. -/
def tryAlphaRun (l : List Char) : Nat → Option Nat
  | 0 => none
  | m + 1 => if boundaryAfterRun l (m + 1) then some (m + 1) else tryAlphaRun l m

/-- Greedy match of `[a-zA-Z]+\b` at the front of `l`, returning the number of
characters consumed. -/
def tryAlpha (l : List Char) : Option Nat :=
  tryAlphaRun l (runLength Char.isAlpha l)

/-- Backtracking for `[\w-]+\.[a-zA-Z]+\b`: try `[\w-]+` lengths from `j`
down to 1; each candidate must be followed by `'.'` and then `tryAlpha`. -/
def tryStemRun (l : List Char) : Nat → Option Nat
  | 0 => none
  | j + 1 =>
    match l.drop (j + 1) with
    | '.' :: rest =>
      (match tryAlpha rest with
       | some m => some (j + 1 + 1 + m)
       | none => tryStemRun l j)
    | _ => tryStemRun l j

/-- Greedy match of `[\w-]+\.[a-zA-Z]+\b` at the front of `l`. -/
def tryStem (l : List Char) : Option Nat :=
  tryStemRun l (runLength isWDash l)

/-- Greedy match of `(?:[\w-]+/)*[\w-]+\.[a-zA-Z]+\b` at the front of `l`,
entered with `j = runLength isWDash l`: first try one `[\w-]+/` group
iteration (longest `[\w-]+` first, backtracking `j` downwards) followed
recursively by the rest of the pattern; when every group iteration fails
(`j = 0`), match the final `[\w-]+\.[a-zA-Z]+\b` at the current position.
This is precisely the backtracking order of Python's engine.  `fuel` only
bounds the recursion depth and every step consumes one unit; the j-loop at a
position takes at most `l.length + 1` steps and each group iteration moves to
a strictly shorter suffix, so `(l.length + 2) * (l.length + 2)` units are
never exhausted. -/
def tryFrom : Nat → List Char → Nat → Option Nat
  | 0, _, _ => none
  | _ + 1, l, 0 => tryStem l
  | fuel + 1, l, j + 1 =>
    match l.drop (j + 1) with
    | '/' :: rest =>
      (match tryFrom fuel rest (runLength isWDash rest) with
       | some n => some (j + 1 + 1 + n)
       | none => tryFrom fuel l j)
    | _ => tryFrom fuel l j

/-- Attempt the whole path pattern at the front of `l` (the position after a
word boundary), with ample fuel. -/
def tryPattern (l : List Char) : Option Nat :=
  tryFrom ((l.length + 2) * (l.length + 2)) l (runLength isWDash l)

/-- The `re.findall` scan: at each position with a word boundary, attempt the
pattern; on success emit the matched token and resume after it
(non-overlapping), otherwise advance one character.  `prev` is the previous
character (`none` at the start of the text). -/
def buildMatches : Nat → Option Char → List Char → List String
  | 0, _, _ => []
  | _, _, [] => []
  | fuel + 1, prev, c :: cs =>
    let here := c :: cs
    let prevWord := match prev with
      | none => false
      | some p => isWordChar p
    if isWordChar c != prevWord then
      match tryPattern here with
      | some n =>
        String.mk (here.take n) ::
          buildMatches fuel ((here.take n).getLast?) (here.drop n)
      | none => buildMatches fuel (some c) cs
    else buildMatches fuel (some c) cs

/-- `find_mentioned_files(text)` (lines 57-62): empty text short-circuits to
`[]`; otherwise `list(set(re.findall(pattern, text)))`.  Python's set has no
specified iteration order, so the set round-trip is embedded as `dedup`. -/
def find_mentioned_files (text : String) : List String :=
  if text = "" then []
  else (buildMatches (text.toList.length + 1) none text.toList).dedup

/-! ### The repository file tree -/

/-- A node of the repository file tree, as navigated through
`repo.get_contents`.  Files carry their decoded content. -/
inductive FSNode where
  | file (name : String) (content : String)
  | dir (name : String) (children : List FSNode)
deriving Repr

/-- The name of a tree node. -/
def FSNode.name : FSNode → String
  | .file n _ => n
  | .dir n _ => n

/-- The repository collaborator: its file tree (rooted at the listing
`repo.get_contents("")`) and its closed-issue stream. -/
structure Repo where
  root : List FSNode
  closedIssues : List ClosedIssue

/-- Resolve a `/`-separated component list against a tree level. -/
def lookupPath : List String → List FSNode → Option FSNode
  | [], _ => none
  | [c], nodes => nodes.find? (fun n => n.name == c)
  | c :: rest, nodes =>
    match nodes.find? (fun n => n.name == c) with
    | some (FSNode.dir _ children) => lookupPath rest children
    | _ => none

/-- Does `repo.get_contents(path)` succeed (no `GithubException`)?  It does
for files and for directories alike. -/
def pathExists (root : List FSNode) (path : String) : Bool :=
  (lookupPath (splitPath path) root).isSome

/-- `get_file_content(repo, file_path)` (lines 123-128): decoded content on
success, `None` on a `GithubException`. -/
def get_file_content (repo : Repo) (path : String) : Option String :=
  match lookupPath (splitPath path) repo.root with
  | some (FSNode.file _ content) => some content
  | _ => none

/-! ### Related-file resolver (`identify_related_files`, lines 64-85) -/

/-- `identify_related_files(repo, issue)`: union of the file mentions of the
body and of every comment body (a Python set, embedded as `dedup` of the
concatenation), restricted to the paths for which `repo.get_contents`
succeeds. -/
def identify_related_files (repo : Repo) (issue : Issue) : List String :=
  let related :=
    (find_mentioned_files (issue.body.getD "")
      ++ (issue.commentBodies.map (fun cb => find_mentioned_files (cb.getD ""))).flatten).dedup
  related.filter (fun f => pathExists repo.root f)

/-! ### Classifier (`classify_issue`, lines 87-112) -/

/-- The classification rule table, in the Python dict's insertion order
(which its two `for` loops iterate in). -/
def categories : List (String × List String) :=
  [("bug", ["bug", "error", "problem", "fail", "defect", "broken"]),
   ("feature request", ["feature request", "enhancement", "new feature", "add", "request"]),
   ("documentation", ["documentation", "docs", "typo", "readme", "wiki"]),
   ("question", ["question", "help", "how to", "how do i", "?"]),
   ("enhancement", ["enhancement", "improve", "optimization", "performance"])]

/-- `classify_issue(issue)`: first pass matches a trigger phrase exactly
against the lowercased label names, second pass matches trigger phrases as
substrings of the lowercased title or body; both passes take the first
matching category in table order; no match yields `"other"`. -/
def classify_issue (issue : Issue) : String :=
  let title := strLower issue.title
  let body := strLower (issue.body.getD "")
  let labels := issue.labels.map strLower
  match categories.find? (fun cat => cat.2.any (fun kw => labels.contains kw)) with
  | some cat => cat.1
  | none =>
    match categories.find?
        (fun cat => cat.2.any (fun kw => strContains title kw || strContains body kw)) with
    | some cat => cat.1
    | none => "other"

/-! ### Test-file discovery (`identify_test_files`, lines 143-166) -/

/-- The per-path test predicate of the primary pass (line 146). -/
def isTestFile (file : String) : Bool :=
  strContains (strLower file) "test" || strStarts file "test_" || strEnds file "_test.py"

mutual

/-- One step of the `find_test_files_in_dir` walk: a file named `test_*` or
`*_test.py` contributes its path `dirPath ++ "/" ++ name`; a directory is
walked recursively. -/
def testFilesNode (dirPath : String) : FSNode → List String
  | FSNode.file name _ =>
    if strStarts name "test_" || strEnds name "_test.py"
    then [dirPath ++ "/" ++ name] else []
  | FSNode.dir name children =>
    find_test_files_in_dir (dirPath ++ "/" ++ name) children

/-- `find_test_files_in_dir(repo, dir_path)` (lines 158-166): recursive walk
over the listing of `dirPath`, collecting files named `test_*` or
`*_test.py` in traversal order. -/
def find_test_files_in_dir (dirPath : String) : List FSNode → List String
  | [] => []
  | content :: rest =>
    testFilesNode dirPath content ++ find_test_files_in_dir dirPath rest

end

/-- `identify_test_files(repo, related_files)`: filter the related files by
`isTestFile`; if none qualify, walk every top-level directory whose name
contains "test" (the repository-wide fallback). -/
def identify_test_files (repo : Repo) (related_files : List String) : List String :=
  let test_files := related_files.filter isTestFile
  if test_files.isEmpty then
    repo.root.flatMap (fun content =>
      match content with
      | FSNode.dir name children =>
        if strContains (strLower name) "test"
        then find_test_files_in_dir name children else []
      | _ => [])
  else test_files

/-! ### Similarity ranker (`find_similar_resolved_issues`, lines 179-192)

`SequenceMatcher(None, a, b).ratio()` is an external library computation; it
is embedded as the oracle `ratio : String → String → ℚ`.  Python's
`list.sort(key=..., reverse=True)` is a stable descending sort, embedded as
an insertion sort that places each element after all already-placed elements
of greater-or-equal key. -/

/-- Stable descending insertion of one scored candidate. -/
def insertBySim (x : ClosedIssue × ℚ) : List (ClosedIssue × ℚ) → List (ClosedIssue × ℚ)
  | [] => [x]
  | y :: ys => if y.2 ≤ x.2 then x :: y :: ys else y :: insertBySim x ys

/-- Stable sort by descending similarity (ties keep input order), the
behaviour of `similar_issues.sort(key=lambda x: x[1], reverse=True)`. -/
def sortBySimDesc : List (ClosedIssue × ℚ) → List (ClosedIssue × ℚ)
  | [] => []
  | x :: xs => insertBySim x (sortBySimDesc xs)

/-- The candidate-collection loop (lines 183-189): skip the target issue's
own number, score every other closed issue, keep those with ratio above
`0.5`. -/
def similar_candidates (ratio : String → String → ℚ) (closedIssues : List ClosedIssue)
    (issue : Issue) : List (ClosedIssue × ℚ) :=
  closedIssues.filterMap (fun c =>
    if c.number = issue.number then none
    else
      let s := ratio issue.title c.title
      if 1/2 < s then some (c, s) else none)

/-- `find_similar_resolved_issues(repo, issue, limit)`: collect, sort
descending (stably), truncate to `limit`. -/
def find_similar_resolved_issues (ratio : String → String → ℚ)
    (closedIssues : List ClosedIssue) (issue : Issue) (limit : Nat) :
    List (ClosedIssue × ℚ) :=
  (sortBySimDesc (similar_candidates ratio closedIssues issue)).take limit

/-- The call with Python's default argument `limit=5`. -/
def find_similar_resolved_issues_default (ratio : String → String → ℚ)
    (closedIssues : List ClosedIssue) (issue : Issue) : List (ClosedIssue × ℚ) :=
  find_similar_resolved_issues ratio closedIssues issue 5

/-! ### Complexity estimator (lines 194-235)

`ast.parse` is the external Python parser; it is embedded as an oracle
`parse : String → Option PyAst` over an abstract syntax-tree shape that
distinguishes exactly the node kinds the visitor dispatches on.  A
`SyntaxError` is `none`. -/

/-- Abstract Python syntax tree: the node kinds `ComplexityVisitor` has
`visit_` methods for, plus `asyncFunctionDef` (which has no such method),
`module`, and a catch-all `expr` for every other node kind; each node holds
its child nodes. -/
inductive PyAst where
  | functionDef (body : List PyAst)
  | asyncFunctionDef (body : List PyAst)
  | classDef (body : List PyAst)
  | ifStmt (body : List PyAst)
  | whileStmt (body : List PyAst)
  | forStmt (body : List PyAst)
  | module (body : List PyAst)
  | expr (body : List PyAst)
deriving Repr

mutual

/-- The visitor's traversal (lines 203-225): `visit_FunctionDef`,
`visit_ClassDef`, `visit_If`, `visit_While`, `visit_For` each add 1 to
`self.complexity` and recurse via `generic_visit`; every other node kind is
handled by the inherited `generic_visit`, which only recurses. -/
def ComplexityVisitor.visitNode (acc : Nat) : PyAst → Nat
  | PyAst.functionDef body => ComplexityVisitor.visitList (acc + 1) body
  | PyAst.asyncFunctionDef body => ComplexityVisitor.visitList acc body
  | PyAst.classDef body => ComplexityVisitor.visitList (acc + 1) body
  | PyAst.ifStmt body => ComplexityVisitor.visitList (acc + 1) body
  | PyAst.whileStmt body => ComplexityVisitor.visitList (acc + 1) body
  | PyAst.forStmt body => ComplexityVisitor.visitList (acc + 1) body
  | PyAst.module body => ComplexityVisitor.visitList acc body
  | PyAst.expr body => ComplexityVisitor.visitList acc body

/-- Visit a list of child nodes in order, threading the accumulator. -/
def ComplexityVisitor.visitList (acc : Nat) : List PyAst → Nat
  | [] => acc
  | n :: rest => ComplexityVisitor.visitList (ComplexityVisitor.visitNode acc n) rest

end

/-- `calculate_code_complexity(content)` (lines 194-201): run the visitor
from `self.complexity = 0`; a `SyntaxError` (parse failure) yields `None`. -/
def calculate_code_complexity (parse : String → Option PyAst) (content : String) :
    Option Nat :=
  match parse content with
  | some tree => some (ComplexityVisitor.visitNode 0 tree)
  | none => none

/-- Is this one of the five node kinds the visitor counts? -/
def countedConstruct : PyAst → Bool
  | PyAst.functionDef _ => true
  | PyAst.classDef _ => true
  | PyAst.ifStmt _ => true
  | PyAst.whileStmt _ => true
  | PyAst.forStmt _ => true
  | _ => false

mutual

/-- All nodes of a tree, the node itself included (declarative side of the
complexity count). -/
def PyAst.subnodes : PyAst → List PyAst
  | PyAst.functionDef body => PyAst.functionDef body :: PyAst.subnodesList body
  | PyAst.asyncFunctionDef body => PyAst.asyncFunctionDef body :: PyAst.subnodesList body
  | PyAst.classDef body => PyAst.classDef body :: PyAst.subnodesList body
  | PyAst.ifStmt body => PyAst.ifStmt body :: PyAst.subnodesList body
  | PyAst.whileStmt body => PyAst.whileStmt body :: PyAst.subnodesList body
  | PyAst.forStmt body => PyAst.forStmt body :: PyAst.subnodesList body
  | PyAst.module body => PyAst.module body :: PyAst.subnodesList body
  | PyAst.expr body => PyAst.expr body :: PyAst.subnodesList body

/-- All nodes of a forest. -/
def PyAst.subnodesList : List PyAst → List PyAst
  | [] => []
  | t :: ts => PyAst.subnodes t ++ PyAst.subnodesList ts

end

/-- `analyze_code_area_complexity(repo, related_files)` (lines 227-235): an
ordered association list; a file is recorded only when its content is
available and parses. -/
def analyze_code_area_complexity (parse : String → Option PyAst) (repo : Repo)
    (related_files : List String) : List (String × Nat) :=
  related_files.filterMap (fun file =>
    (get_file_content repo file).bind (fun content =>
      (calculate_code_complexity parse content).map (fun k => (file, k))))

/-! ### The orchestrator (`analyze_issue`, lines 309-360) -/

/-- The per-issue analysis record, restricted to the fields the verified
invariants speak about (the template-adherence fields, code snippets,
dependency map, test cases and generated prose of the Python dict are not
embedded). -/
structure AnalysisRecord where
  issue_number : Int
  title : String
  body : String
  labels : List String
  comments : List String
  related_files : List String
  category : String
  test_files : List String
  similar_resolved_issues : List (ClosedIssue × ℚ)
  code_area_complexity : List (String × Nat)
deriving Repr

/-- `analyze_issue(repo, issue, issue_templates)`: `related_files` comes from
the resolver, `test_files` from `identify_test_files` applied to those
related files, `similar_resolved_issues` from the ranker at its default
limit 5, and `code_area_complexity` from the per-file estimator. -/
def analyze_issue (parse : String → Option PyAst) (ratio : String → String → ℚ)
    (repo : Repo) (issue : Issue) : AnalysisRecord :=
  let related := identify_related_files repo issue
  { issue_number := issue.number
    title := issue.title
    body := issue.body.getD ""
    labels := issue.labels
    comments := issue.commentBodies.map (fun cb => cb.getD "")
    related_files := related
    category := classify_issue issue
    test_files := identify_test_files repo related
    similar_resolved_issues :=
      find_similar_resolved_issues_default ratio repo.closedIssues issue
    code_area_complexity := analyze_code_area_complexity parse repo related }

/-! ## Concrete fixtures used by counterexamples and witnesses -/

/-- A parse oracle under which every file is unparseable. -/
def parseNone : String → Option PyAst := fun _ => none

/-- The value of `ast.parse` at the empty source file: an empty `Module`
(the empty string is parseable Python). -/
def parseEmptyModule : String → Option PyAst := fun _ => some (PyAst.module [])

/-- A similarity oracle that scores every pair 0. -/
def ratioZero : String → String → ℚ := fun _ _ => 0

/-- A similarity oracle that scores every pair 1 (identical titles). -/
def ratioOne : String → String → ℚ := fun _ _ => 1

/-- A repository with one source file and one test directory. -/
def repoC1 : Repo :=
  { root := [FSNode.dir "src" [FSNode.file "main.py" ""],
             FSNode.dir "tests" [FSNode.file "test_foo.py" ""]],
    closedIssues := [] }

/-- An issue whose body mentions only `src/main.py`. -/
def issueC1 : Issue :=
  { number := 1, title := "t", body := some "see src/main.py",
    labels := [], comments := 0, created_at := 0, commentBodies := [] }

/-- An issue whose body mentions the test file `tests/test_foo.py`. -/
def issueT : Issue :=
  { number := 1, title := "t", body := some "see tests/test_foo.py",
    labels := [], comments := 0, created_at := 0, commentBodies := [] }

/-- One closed issue, with a number different from `issueC1`'s. -/
def closedTwo : List ClosedIssue := [{ number := 2, title := "t2" }]

/-- An issue labelled "Bug" whose title talks about a feature. -/
def issueBug : Issue :=
  { number := 1, title := "feature please", body := some "",
    labels := ["Bug"], comments := 0, created_at := 0, commentBodies := [] }

/-- An issue labelled "enhancement", a trigger phrase of two categories. -/
def issueEnh : Issue :=
  { number := 1, title := "feature please", body := some "",
    labels := ["enhancement"], comments := 0, created_at := 0, commentBodies := [] }

/-- An issue matching no classification rule. -/
def issueOther : Issue :=
  { number := 1, title := "hello", body := some "",
    labels := [], comments := 0, created_at := 0, commentBodies := [] }

/-! ## Helper lemmas -/

theorem mem_insertBySim (x a : ClosedIssue × ℚ) :
    ∀ s : List (ClosedIssue × ℚ), a ∈ insertBySim x s ↔ a = x ∨ a ∈ s
  | [] => by simp [insertBySim]
  | y :: ys => by
    by_cases h : y.2 ≤ x.2
    · simp [insertBySim, h]
    · simp only [insertBySim, if_neg h, List.mem_cons, mem_insertBySim x a ys]
      tauto

theorem pairwise_insertBySim (x : ClosedIssue × ℚ) :
    ∀ s : List (ClosedIssue × ℚ), s.Pairwise (fun a b => b.2 ≤ a.2) →
      (insertBySim x s).Pairwise (fun a b => b.2 ≤ a.2)
  | [], _ => by simp [insertBySim]
  | y :: ys, h => by
    rcases List.pairwise_cons.mp h with ⟨hy, hys⟩
    by_cases hc : y.2 ≤ x.2
    · rw [insertBySim, if_pos hc]
      refine List.pairwise_cons.mpr ⟨?_, h⟩
      intro b hb
      rcases List.mem_cons.mp hb with rfl | hb
      · exact hc
      · exact le_trans (hy b hb) hc
    · rw [insertBySim, if_neg hc]
      refine List.pairwise_cons.mpr ⟨?_, pairwise_insertBySim x ys hys⟩
      intro b hb
      rcases (mem_insertBySim x b ys).mp hb with rfl | hb
      · exact le_of_lt (lt_of_not_le hc)
      · exact hy b hb

theorem filter_insertBySim (q : ℚ) (x : ClosedIssue × ℚ) :
    ∀ s : List (ClosedIssue × ℚ),
      (insertBySim x s).filter (fun p => decide (p.2 = q))
        = (x :: s).filter (fun p => decide (p.2 = q))
  | [] => rfl
  | y :: ys => by
    by_cases hc : y.2 ≤ x.2
    · rw [insertBySim, if_pos hc]
    · rw [insertBySim, if_neg hc]
      have hxy : ¬(x.2 = q ∧ y.2 = q) := by
        rintro ⟨h1, h2⟩
        exact hc (h2 ▸ h1 ▸ le_refl q)
      simp only [List.filter_cons, filter_insertBySim q x ys]
      by_cases h1 : x.2 = q <;> by_cases h2 : y.2 = q <;>
        simp [h1, h2] at hxy ⊢

theorem mem_sortBySimDesc (a : ClosedIssue × ℚ) :
    ∀ l : List (ClosedIssue × ℚ), a ∈ sortBySimDesc l ↔ a ∈ l
  | [] => Iff.rfl
  | x :: xs => by
    simp [sortBySimDesc, mem_insertBySim, mem_sortBySimDesc a xs]

theorem pairwise_sortBySimDesc :
    ∀ l : List (ClosedIssue × ℚ), (sortBySimDesc l).Pairwise (fun a b => b.2 ≤ a.2)
  | [] => List.Pairwise.nil
  | x :: xs => pairwise_insertBySim x _ (pairwise_sortBySimDesc xs)

theorem filter_sortBySimDesc (q : ℚ) :
    ∀ l : List (ClosedIssue × ℚ),
      (sortBySimDesc l).filter (fun p => decide (p.2 = q))
        = l.filter (fun p => decide (p.2 = q))
  | [] => rfl
  | x :: xs => by
    rw [sortBySimDesc, filter_insertBySim q x (sortBySimDesc xs)]
    simp only [List.filter_cons, filter_sortBySimDesc q xs]

theorem mem_similar_candidates {ratio : String → String → ℚ}
    {closedIssues : List ClosedIssue} {issue : Issue} {p : ClosedIssue × ℚ}
    (hp : p ∈ similar_candidates ratio closedIssues issue) :
    1/2 < p.2 ∧ p.1.number ≠ issue.number := by
  rcases List.mem_filterMap.mp hp with ⟨c, _, hc⟩
  simp only [similar_candidates] at hc
  split_ifs at hc with h1 h2
  · obtain rfl := Option.some_inj.mp hc
    exact ⟨h2, h1⟩

mutual

theorem visitNode_eq (t : PyAst) (acc : Nat) :
    ComplexityVisitor.visitNode acc t
      = acc + (PyAst.subnodes t).countP countedConstruct := by
  cases t with
  | functionDef body =>
    rw [ComplexityVisitor.visitNode, PyAst.subnodes, visitList_eq body (acc + 1)]
    simp [countedConstruct]
    omega
  | asyncFunctionDef body =>
    rw [ComplexityVisitor.visitNode, PyAst.subnodes, visitList_eq body acc]
    simp [countedConstruct]
  | classDef body =>
    rw [ComplexityVisitor.visitNode, PyAst.subnodes, visitList_eq body (acc + 1)]
    simp [countedConstruct]
    omega
  | ifStmt body =>
    rw [ComplexityVisitor.visitNode, PyAst.subnodes, visitList_eq body (acc + 1)]
    simp [countedConstruct]
    omega
  | whileStmt body =>
    rw [ComplexityVisitor.visitNode, PyAst.subnodes, visitList_eq body (acc + 1)]
    simp [countedConstruct]
    omega
  | forStmt body =>
    rw [ComplexityVisitor.visitNode, PyAst.subnodes, visitList_eq body (acc + 1)]
    simp [countedConstruct]
    omega
  | module body =>
    rw [ComplexityVisitor.visitNode, PyAst.subnodes, visitList_eq body acc]
    simp [countedConstruct]
  | expr body =>
    rw [ComplexityVisitor.visitNode, PyAst.subnodes, visitList_eq body acc]
    simp [countedConstruct]

theorem visitList_eq (ts : List PyAst) (acc : Nat) :
    ComplexityVisitor.visitList acc ts
      = acc + (PyAst.subnodesList ts).countP countedConstruct := by
  cases ts with
  | nil => simp [ComplexityVisitor.visitList, PyAst.subnodesList]
  | cons t rest =>
    rw [ComplexityVisitor.visitList, PyAst.subnodesList, visitList_eq rest _,
      visitNode_eq t acc]
    simp [List.countP_append]
    omega

end

theorem identify_test_files_of_primary (repo : Repo) (related_files : List String)
    (h : related_files.filter isTestFile ≠ []) :
    identify_test_files repo related_files = related_files.filter isTestFile := by
  simp only [identify_test_files]
  rw [if_neg]
  simp [List.isEmpty_iff, h]

/-! ## The claims -/

/-- C1, counterexample.  For `issueC1` on `repoC1` the primary pass finds no
test file among the related files (`["src/main.py"]`), so the fallback
repository walk runs and returns `tests/test_foo.py`, which is not a related
file: the record violates `related_files ⊇ test_files`. -/
theorem analyze_issue_test_files_escape_related :
    "tests/test_foo.py" ∈ (analyze_issue parseNone ratioZero repoC1 issueC1).test_files
    ∧ "tests/test_foo.py" ∉ (analyze_issue parseNone ratioZero repoC1 issueC1).related_files := by
  constructor <;> decide

/-- C1, amended.  Whenever the primary pass finds at least one test file
among the record's related files (so the repository-wide fallback does not
run), every test file of the record is also one of its related files. -/
theorem analyze_issue_test_files_subset_related (parse : String → Option PyAst)
    (ratio : String → String → ℚ) (repo : Repo) (issue : Issue)
    (h : (analyze_issue parse ratio repo issue).related_files.filter isTestFile ≠ []) :
    ∀ f ∈ (analyze_issue parse ratio repo issue).test_files,
      f ∈ (analyze_issue parse ratio repo issue).related_files := by
  intro f hf
  have ht : (analyze_issue parse ratio repo issue).test_files
      = (analyze_issue parse ratio repo issue).related_files.filter isTestFile :=
    identify_test_files_of_primary repo _ h
  rw [ht] at hf
  exact (List.mem_filter.mp hf).1

/-- C1, witness for the amended theorem: `issueT` mentions
`tests/test_foo.py`, the primary pass keeps it, and it is related. -/
theorem analyze_issue_test_files_subset_related_witness :
    "tests/test_foo.py" ∈ (analyze_issue parseNone ratioZero repoC1 issueT).related_files :=
  analyze_issue_test_files_subset_related parseNone ratioZero repoC1 issueT
    (by decide) "tests/test_foo.py" (by decide)

/-- C2, counterexample.  `ast.parse("")` yields an empty module, and the
visitor starts from `self.complexity = 0` with no per-unit base: the
aggregate for a parseable file with no counted construct is 0, not
`1 + (number of counted constructs) = 1`. -/
theorem calculate_code_complexity_no_base :
    calculate_code_complexity parseEmptyModule "" = some 0
    ∧ (0 : Nat) ≠ 1 + (PyAst.module []).subnodes.countP countedConstruct := by
  constructor <;> decide

/-- C2, amended.  For every source text that parses, the file aggregate of
`calculate_code_complexity` equals the number of function definitions, class
definitions, `if` statements, `while` loops and `for` loops in the syntax
tree, with no added base; in particular a parseable file containing none of
those constructs has complexity 0. -/
theorem calculate_code_complexity_eq_count (parse : String → Option PyAst)
    (content : String) (t : PyAst) (h : parse content = some t) :
    calculate_code_complexity parse content
      = some (t.subnodes.countP countedConstruct) := by
  rw [calculate_code_complexity, h]
  rw [show (match some t with
      | some tree => some (ComplexityVisitor.visitNode 0 tree)
      | none => none) = some (ComplexityVisitor.visitNode 0 t) from rfl]
  rw [visitNode_eq t 0, Nat.zero_add]

/-- C2, witness: the amended theorem applied to the empty module. -/
theorem calculate_code_complexity_eq_count_witness :
    calculate_code_complexity parseEmptyModule ""
      = some ((PyAst.module []).subnodes.countP countedConstruct) :=
  calculate_code_complexity_eq_count parseEmptyModule "" (PyAst.module []) rfl

/-- C3, counterexample.  `score_issue` reads the wall clock
(`datetime.now`): the same issue snapshot with the same templates scores 4
when evaluated 29 days after creation (age tier +2) and 3 when evaluated 31
days after creation (age tier +1), so the score is not a function of the
issue's observable fields and the template set alone. -/
theorem score_issue_depends_on_clock :
    score_issue issueC1 [] 29 ≠ score_issue issueC1 [] 31 := by
  decide

/-- C3, amended.  `score_issue` is deterministic in the fields it reads plus
the clock: it reads nothing of the issue except its labels, body, comment
count and creation time, so two issues agreeing on those four fields (they
may differ in number, title and comment bodies) score equally for every
template set and every evaluation time; the score does, however, change as
the clock crosses an age-tier boundary. -/
theorem score_issue_deterministic (i1 i2 : Issue) (issue_templates : List IssueTemplate)
    (now : Int) (hl : i1.labels = i2.labels) (hb : i1.body = i2.body)
    (hc : i1.comments = i2.comments) (hcr : i1.created_at = i2.created_at) :
    score_issue i1 issue_templates now = score_issue i2 issue_templates now := by
  simp only [score_issue, hl, hb, hc, hcr]

/-- C3, witness: two issues differing only in number and title score
equally. -/
theorem score_issue_deterministic_witness :
    score_issue issueC1 [] 29
      = score_issue { issueC1 with number := 99, title := "other title" } [] 29 :=
  score_issue_deterministic issueC1 _ [] 29 rfl rfl rfl rfl

/-- C4.  The classifier checks labels before title/body text and scans the
categories in the fixed order bug, feature request, documentation, question,
enhancement, first match winning: (1) a label lowercasing to "bug" forces
the class "bug" whatever the title and body say; (2) with the single label
"enhancement" — a trigger phrase of both "feature request" and
"enhancement" — the earlier category "feature request" wins; (3) with the
single label "documentation" the text pass is never consulted, whatever the
title and body contain; (4) an issue matching no rule in either pass is
classified "other". -/
theorem classify_issue_rule_order :
    (∀ issue : Issue, "bug" ∈ issue.labels.map strLower → classify_issue issue = "bug")
    ∧ (∀ issue : Issue, issue.labels = ["enhancement"] →
        classify_issue issue = "feature request")
    ∧ (∀ issue : Issue, issue.labels = ["documentation"] →
        classify_issue issue = "documentation")
    ∧ (∀ issue : Issue,
        (∀ cat ∈ categories, ∀ kw ∈ cat.2,
          kw ∉ issue.labels.map strLower
          ∧ strContains (strLower issue.title) kw = false
          ∧ strContains (strLower (issue.body.getD "")) kw = false) →
        classify_issue issue = "other") := by
  refine ⟨?_, ?_, ?_, ?_⟩
  · intro issue h
    have hc : (issue.labels.map strLower).contains "bug" = true :=
      List.elem_eq_true_of_mem h
    have hp : List.any ["bug", "error", "problem", "fail", "defect", "broken"]
        (fun kw => (issue.labels.map strLower).contains kw) = true := by
      rw [List.any_eq_true]
      exact ⟨"bug", by simp, hc⟩
    have hfind : categories.find?
        (fun cat => cat.2.any (fun kw => (issue.labels.map strLower).contains kw))
        = some ("bug", ["bug", "error", "problem", "fail", "defect", "broken"]) := by
      simp only [categories]
      exact List.find?_cons_of_pos _ hp
    simp only [classify_issue]
    rw [hfind]
  · intro issue h
    simp only [classify_issue]
    rw [h]
    rfl
  · intro issue h
    simp only [classify_issue]
    rw [h]
    rfl
  · intro issue h
    have h1 : categories.find?
        (fun cat => cat.2.any (fun kw => (issue.labels.map strLower).contains kw)) = none := by
      apply List.find?_eq_none.mpr
      intro cat hcat hany
      rw [List.any_eq_true] at hany
      obtain ⟨kw, hkw, hb⟩ := hany
      exact (h cat hcat kw hkw).1 (List.mem_of_elem_eq_true hb)
    have h2 : categories.find?
        (fun cat => cat.2.any
          (fun kw => strContains (strLower issue.title) kw
            || strContains (strLower (issue.body.getD "")) kw)) = none := by
      apply List.find?_eq_none.mpr
      intro cat hcat hany
      rw [List.any_eq_true] at hany
      obtain ⟨kw, hkw, hb⟩ := hany
      rw [Bool.or_eq_true] at hb
      rcases hb with ht | hb2
      · rw [(h cat hcat kw hkw).2.1] at ht
        exact Bool.false_ne_true ht
      · rw [(h cat hcat kw hkw).2.2] at hb2
        exact Bool.false_ne_true hb2
    simp only [classify_issue]
    rw [h1, h2]

/-- C4, witness: the rule instances at concrete issues — a "Bug" label with
the title "feature please", an "enhancement" label, and a wholly unmatched
issue. -/
theorem classify_issue_rule_order_witness :
    classify_issue issueBug = "bug"
    ∧ classify_issue issueEnh = "feature request"
    ∧ classify_issue issueOther = "other" :=
  ⟨classify_issue_rule_order.1 issueBug (by decide),
   classify_issue_rule_order.2.1 issueEnh rfl,
   classify_issue_rule_order.2.2.2 issueOther (by decide)⟩

/-- C5.  The ranker returns only candidates whose similarity ratio exceeds
1/2; the result is sorted by non-increasing ratio; ties preserve candidate
input order (for each ratio value the result's entries with that ratio form
a prefix of the filtered candidate stream's entries with that ratio, in the
same order); the result has length at most `limit`; and the default call
uses limit 5. -/
theorem find_similar_resolved_issues_ranked (ratio : String → String → ℚ)
    (closedIssues : List ClosedIssue) (issue : Issue) (limit : Nat) :
    (∀ p ∈ find_similar_resolved_issues ratio closedIssues issue limit, 1/2 < p.2)
    ∧ (find_similar_resolved_issues ratio closedIssues issue limit).Pairwise
        (fun a b => b.2 ≤ a.2)
    ∧ (∀ q : ℚ,
        (find_similar_resolved_issues ratio closedIssues issue limit).filter
            (fun p => decide (p.2 = q))
          <+: (similar_candidates ratio closedIssues issue).filter
            (fun p => decide (p.2 = q)))
    ∧ (find_similar_resolved_issues ratio closedIssues issue limit).length ≤ limit
    ∧ find_similar_resolved_issues_default ratio closedIssues issue
        = find_similar_resolved_issues ratio closedIssues issue 5 := by
  refine ⟨?_, ?_, ?_, ?_, rfl⟩
  · intro p hp
    have hs : p ∈ sortBySimDesc (similar_candidates ratio closedIssues issue) :=
      List.take_subset _ _ hp
    exact (mem_similar_candidates ((mem_sortBySimDesc p _).mp hs)).1
  · exact (pairwise_sortBySimDesc _).sublist (List.take_sublist _ _)
  · intro q
    refine ⟨(List.drop limit (sortBySimDesc (similar_candidates ratio closedIssues issue))).filter
      (fun p => decide (p.2 = q)), ?_⟩
    rw [find_similar_resolved_issues, ← List.filter_append, List.take_append_drop,
      filter_sortBySimDesc]
  · exact List.length_take_le _ _

/-- C5, witness: with the constant-1 similarity oracle and one closed issue
numbered 2, the single returned entry indeed has ratio above 1/2. -/
theorem find_similar_resolved_issues_ranked_witness : (1 : ℚ)/2 < 1 := by
  have hcand : similar_candidates ratioOne closedTwo issueC1
      = [({ number := 2, title := "t2" }, (1 : ℚ))] := by
    simp only [similar_candidates, closedTwo, issueC1, ratioOne, List.filterMap]
    norm_num
  have hmem : (({ number := 2, title := "t2" } : ClosedIssue), (1 : ℚ))
      ∈ find_similar_resolved_issues ratioOne closedTwo issueC1 2 := by
    rw [find_similar_resolved_issues, hcand]
    simp [sortBySimDesc, insertBySim]
  exact (find_similar_resolved_issues_ranked ratioOne closedTwo issueC1 2).1 _ hmem

/-- C6.  Changing only the body (with no templates supplied) changes
`score_issue` by exactly the description tier of the new body's length, and
that tier has inclusive boundaries: lengths 100 and 500 award 3, length 99
awards 2, length 501 awards 0. -/
theorem score_issue_body_length_boundaries :
    (∀ (i : Issue) (now : Int) (b : String),
        score_issue { i with body := some b } [] now
            - score_issue { i with body := some "" } [] now
          = scoreDescription b.length)
    ∧ scoreDescription 100 = 3 ∧ scoreDescription 500 = 3
    ∧ scoreDescription 99 = 2 ∧ scoreDescription 501 = 0 := by
  refine ⟨?_, by decide, by decide, by decide, by decide⟩
  intro i now b
  have h0 : scoreDescription ("" : String).length = 0 := by decide
  have ht : ∀ body : String, scoreTemplates body [] = 0 := fun body => rfl
  simp only [score_issue, Option.getD_some, ht, h0]
  ring

/-- C7.  `find_mentioned_files` on the empty string is empty; on
"see src/app/main.py" it contains "src/app/main.py"; and the bare token
"file.txt", with no path separator, is still matched (the group of leading
`segment/` components may repeat zero times). -/
theorem find_mentioned_files_examples :
    find_mentioned_files "" = []
    ∧ "src/app/main.py" ∈ find_mentioned_files "see src/app/main.py"
    ∧ "file.txt" ∈ find_mentioned_files "file.txt" := by
  refine ⟨rfl, ?_, ?_⟩ <;> decide

/-- C8.  An unparseable source text makes `calculate_code_complexity` return
`none` ("unknown", distinct from `some 0`), and `analyze_code_area_complexity`
then omits that file's key from the complexity map instead of recording 0. -/
theorem complexity_unknown_not_zero :
    (∀ (parse : String → Option PyAst) (content : String),
        parse content = none → calculate_code_complexity parse content = none)
    ∧ (∀ (parse : String → Option PyAst) (repo : Repo) (files : List String)
        (file content : String),
        get_file_content repo file = some content → parse content = none →
        file ∉ (analyze_code_area_complexity parse repo files).map Prod.fst) := by
  constructor
  · intro parse content h
    rw [calculate_code_complexity, h]
  · intro parse repo files file content hget hparse hmem
    rcases List.mem_map.mp hmem with ⟨pair, hpair, hfst⟩
    rcases List.mem_filterMap.mp hpair with ⟨f0, _, heq⟩
    rcases Option.bind_eq_some.mp heq with ⟨c0, hgc, hmap⟩
    rcases Option.map_eq_some'.mp hmap with ⟨k, hcalc, hpk⟩
    subst hpk
    have hff : f0 = file := hfst
    rw [hff] at hgc
    rw [hget] at hgc
    obtain rfl := Option.some_inj.mp hgc
    rw [calculate_code_complexity, hparse] at hcalc
    exact absurd hcalc (by simp)

/-- C8, witness: on `repoC1`, whose `src/main.py` has unparseable (here:
never-parsing) content, the complexity map has no key for it. -/
theorem complexity_unknown_not_zero_witness :
    "src/main.py" ∉ (analyze_code_area_complexity parseNone repoC1 ["src/main.py"]).map
      Prod.fst :=
  complexity_unknown_not_zero.2 parseNone repoC1 ["src/main.py"] "src/main.py" ""
    (by decide) rfl

/-- C9.  Every path returned by `identify_related_files` was mentioned (per
`find_mentioned_files`) in the issue body or in some comment body, and its
existence was confirmed by the repository lookup; no path outside that union
is ever returned. -/
theorem identify_related_files_sound (repo : Repo) (issue : Issue) :
    ∀ f ∈ identify_related_files repo issue,
      (f ∈ find_mentioned_files (issue.body.getD "")
        ∨ ∃ cb ∈ issue.commentBodies, f ∈ find_mentioned_files (cb.getD ""))
      ∧ pathExists repo.root f = true := by
  intro f hf
  simp only [identify_related_files] at hf
  have h2 := List.mem_filter.mp hf
  refine ⟨?_, h2.2⟩
  rcases List.mem_append.mp (List.mem_dedup.mp h2.1) with hmem | hmem
  · exact Or.inl hmem
  · rcases List.mem_flatten.mp hmem with ⟨l0, hl0, hf0⟩
    rcases List.mem_map.mp hl0 with ⟨cb, hcb, rfl⟩
    exact Or.inr ⟨cb, hcb, hf0⟩

/-- C9, witness: `src/main.py` is returned for `issueC1` on `repoC1`, and the
theorem certifies it was mentioned and exists. -/
theorem identify_related_files_sound_witness :
    ("src/main.py" ∈ find_mentioned_files (issueC1.body.getD "")
      ∨ ∃ cb ∈ issueC1.commentBodies, "src/main.py" ∈ find_mentioned_files (cb.getD ""))
    ∧ pathExists repoC1.root "src/main.py" = true :=
  identify_related_files_sound repoC1 issueC1 "src/main.py" (by decide)

/-- C10.  The ranked similar-issues sequence never contains an entry whose
issue number equals the target issue's own number: the collection loop skips
closed issues with `closed_issue.number == issue.number`. -/
theorem find_similar_excludes_target (ratio : String → String → ℚ)
    (closedIssues : List ClosedIssue) (issue : Issue) (limit : Nat) :
    ∀ p ∈ find_similar_resolved_issues ratio closedIssues issue limit,
      p.1.number ≠ issue.number := by
  intro p hp
  have hs : p ∈ sortBySimDesc (similar_candidates ratio closedIssues issue) :=
    List.take_subset _ _ hp
  exact (mem_similar_candidates ((mem_sortBySimDesc p _).mp hs)).2

/-- C10, witness: the closed issue numbered 2 is returned for target issue
number 1, and the theorem certifies their numbers differ. -/
theorem find_similar_excludes_target_witness :
    (({ number := 2, title := "t2" } : ClosedIssue), (1 : ℚ)).1.number
      ≠ issueC1.number := by
  have hcand : similar_candidates ratioOne closedTwo issueC1
      = [({ number := 2, title := "t2" }, (1 : ℚ))] := by
    simp only [similar_candidates, closedTwo, issueC1, ratioOne, List.filterMap]
    norm_num
  have hmem : (({ number := 2, title := "t2" } : ClosedIssue), (1 : ℚ))
      ∈ find_similar_resolved_issues ratioOne closedTwo issueC1 2 := by
    rw [find_similar_resolved_issues, hcand]
    simp [sortBySimDesc, insertBySim]
  exact find_similar_excludes_target ratioOne closedTwo issueC1 2 _ hmem
